import Mathlib

/-!
Verification of the invoice-management core (`src/app.py`) against its
natural-language specification.

The development shallowly embeds the Python source:

* The field-extraction engine (`extract_invoice_info`) is embedded with a
  small backtracking pattern-matching engine (`RE` / `mrun` / `reSearch`)
  whose terms mirror the source's regular expressions one for one
  (leftmost search, greedy and lazy repetition with backtracking,
  alternation, optional parts, lookahead, end-of-input anchor, a single
  capture group per pattern, as the source's patterns have).
  Character classes: `\d` is modelled as the ASCII decimal digits,
  `\s` as `Char.isWhitespace`, `[一-龥]` as `isCJK`,
  `.` (no DOTALL) as any character other than a newline.
* The record lifecycle (upload / delete / restore / recycle-bin read /
  permanent delete / batch update) is embedded as pure transformers of a
  `DB` state holding the two sqlite tables, their AUTOINCREMENT counters,
  and the set of stored upload files.  Timestamps (stored by the source as
  `YYYY-MM-DD HH:MM:SS` strings and compared lexicographically, which is
  order-isomorphic to chronological order) are modelled as seconds
  (`Nat`); the 30-day retention cutoff `now - timedelta(days=30)` becomes
  `now - 30 * 86400`.
* External collaborators (Flask marshalling, PaddleOCR, pdf2image, sqlite
  mechanics, the MD5 implementation) are out of scope per the spec; the
  document is represented by its content fingerprint (`get_file_hash` is
  deterministic, so equal bytes give an equal fingerprint), and the OCR +
  extraction outcome enters `upload_invoice` as an `InvoiceData` argument.
-/

namespace Fapiao

/-! ### A small backtracking pattern engine

`RE` covers exactly the constructs the source's patterns use.
`RE.rep p lo hi lazyRep` is the class repetition `p{lo,hi}` (`hi = none`
for unbounded); `lazyRep = true` gives non-greedy matching (`*?`).
-/

inductive RE where
  | lit : String → RE
  | rep : (Char → Bool) → Nat → Option Nat → Bool → RE
  | seq : RE → RE → RE
  | alt : RE → RE → RE
  | grp : RE → RE
  | look : RE → RE
  | eos : RE

/-- Match a literal character list at the head of the input, returning the
rest of the input on success. -/
def matchLit : List Char → List Char → Option (List Char)
  | [], s => some s
  | _ :: _, [] => none
  | c :: cs, d :: ds => if c = d then matchLit cs ds else none

/-- Bounded class repetition with full backtracking.  Greedy repetition
tries the longest extension first and gives characters back on failure of
the continuation `k`; lazy repetition tries the shortest first. -/
def repM (p : Char → Bool) (lo hi : Nat) (lazyRep : Bool) (s : List Char)
    (k : List Char → Option String) : Option String :=
  match hi, s with
  | 0, _ => if lo = 0 then k s else none
  | _ + 1, [] => if lo = 0 then k [] else none
  | h + 1, c :: t =>
    if p c then
      if lazyRep then
        (if lo = 0 then k (c :: t) else none) <|> repM p (lo - 1) h lazyRep t k
      else
        repM p (lo - 1) h lazyRep t k <|> (if lo = 0 then k (c :: t) else none)
    else
      if lo = 0 then k (c :: t) else none

/-- Run a pattern at the head of the input in continuation-passing style.
The continuation receives the unconsumed input; the `Option String` result
is the text of the pattern's (single) capture group, installed by `grp`. -/
def mrun : RE → List Char → (List Char → Option String) → Option String
  | .lit l, s, k =>
    match matchLit l.toList s with
    | some s' => k s'
    | none => none
  | .rep p lo hi lazyRep, s, k => repM p lo (hi.getD s.length) lazyRep s k
  | .seq a b, s, k => mrun a s (fun s' => mrun b s' k)
  | .alt a b, s, k => mrun a s k <|> mrun b s k
  | .grp r, s, k =>
    mrun r s (fun s' => (k s').map (fun _ => String.mk (s.take (s.length - s'.length))))
  | .look r, s, k =>
    match mrun r s (fun _ => some "") with
    | some _ => k s
    | none => none
  | .eos, s, k => if s.isEmpty then k s else none

/-- Leftmost search (`re.search`): try the pattern at each successive
position, returning the capture group of the leftmost match. -/
def reSearch (r : RE) : List Char → Option String
  | [] => mrun r [] (fun _ => some "")
  | c :: t => mrun r (c :: t) (fun _ => some "") <|> reSearch r t

/-- First pattern of an ordered cascade that matches anywhere (the
source's `for pattern in patterns: ... break` loops). -/
def firstMatch : List RE → List Char → Option String
  | [], _ => none
  | p :: ps, s =>
    match reSearch p s with
    | some g => some g
    | none => firstMatch ps s

/-! ### Character classes and string helpers -/

/-- The CJK range `[一-龥]` of the source's patterns. -/
def isCJK (c : Char) : Bool := 0x4e00 ≤ c.toNat && c.toNat ≤ 0x9fa5

/-- Python's `str.strip()`: drop whitespace from both ends. -/
def pyStrip (s : String) : String :=
  String.mk (((s.toList.dropWhile Char.isWhitespace).reverse.dropWhile
    Char.isWhitespace).reverse)

/-- Does `sub` occur contiguously inside the list? -/
def listHasInfix (sub : List Char) : List Char → Bool
  | [] => sub.isEmpty
  | c :: t => (matchLit sub (c :: t)).isSome || listHasInfix sub t

/-- Substring containment (Python's `needle in haystack`). -/
def containsSub (s sub : String) : Bool := listHasInfix sub.toList s.toList

/-- `str.zfill(2)`: left-pad with zeros to width 2. -/
def zfill2 (s : String) : String :=
  String.mk (List.replicate (2 - s.length) '0') ++ s

/-- The maximal decimal-digit runs of a string (`re.findall(r'\d+', s)`). -/
def digitRunsAux : List Char → List Char → List String
  | [], acc => if acc.isEmpty then [] else [String.mk acc.reverse]
  | c :: t, acc =>
    if c.isDigit then digitRunsAux t (c :: acc)
    else if acc.isEmpty then digitRunsAux t []
    else String.mk acc.reverse :: digitRunsAux t []

def digitRuns (s : List Char) : List String := digitRunsAux s []

/-- Remove every marker glyph 年/月/日 (the source's three
`.replace('年','')...` calls, each a single-character pattern replaced by
the empty string). -/
def stripDateMarkers (s : String) : String :=
  String.mk (s.toList.filter (fun c => !(c = '年' || c = '月' || c = '日')))

/-- Remove thousands separators (`.replace(',', '')`). -/
def stripCommas (s : String) : String :=
  String.mk (s.toList.filter (fun c => c ≠ ','))

/-! ### The source's patterns, one definition per regular expression -/

/-- `.*?` — lazy any-character (no DOTALL: newline excluded). -/
def lazyAny : RE := .rep (fun c => c ≠ '\n') 0 none true

/-- `\s*` -/
def spaces0 : RE := .rep Char.isWhitespace 0 none false

/-- `\s+` -/
def spaces1 : RE := .rep Char.isWhitespace 1 none false

/-- `[:：]?` -/
def colonOpt : RE := .rep (fun c => c = ':' || c = '：') 0 (some 1) false

/-- `发票号码.*?(\d{8,20})` -/
def reNumber : RE :=
  .seq (.lit "发票号码") (.seq lazyAny (.grp (.rep Char.isDigit 8 (some 20) false)))

/-- `(\d{4}年\d{1,2}月\d{1,2}日)` -/
def datePat1 : RE :=
  .grp (.seq (.rep Char.isDigit 4 (some 4) false)
    (.seq (.lit "年") (.seq (.rep Char.isDigit 1 (some 2) false)
      (.seq (.lit "月") (.seq (.rep Char.isDigit 1 (some 2) false) (.lit "日"))))))

/-- `(\d{8})` -/
def datePat2 : RE := .grp (.rep Char.isDigit 8 (some 8) false)

/-- `开票日期.*?(\d{4}年\d{1,2}月\d{1,2}日)` -/
def datePat3 : RE := .seq (.lit "开票日期") (.seq lazyAny datePat1)

/-- `开票日期.*?(\d{8})` -/
def datePat4 : RE := .seq (.lit "开票日期") (.seq lazyAny datePat2)

def date_patterns : List RE := [datePat1, datePat2, datePat3, datePat4]

/-- `([\d,]+\.?\d*)` -/
def amountNum : RE :=
  .grp (.seq (.rep (fun c => c.isDigit || c = ',') 1 none false)
    (.seq (.alt (.lit ".") (.lit "")) (.rep Char.isDigit 0 none false)))

/-- `价税合计.*?¥\s*([\d,]+\.?\d*)` -/
def amountPat1 : RE :=
  .seq (.lit "价税合计") (.seq lazyAny (.seq (.lit "¥") (.seq spaces0 amountNum)))

/-- `价税合计.*?([\d,]+\.?\d*)` -/
def amountPat2 : RE := .seq (.lit "价税合计") (.seq lazyAny amountNum)

/-- `合计.*?¥\s*([\d,]+\.?\d*)` -/
def amountPat3 : RE :=
  .seq (.lit "合计") (.seq lazyAny (.seq (.lit "¥") (.seq spaces0 amountNum)))

/-- `总金额.*?¥\s*([\d,]+\.?\d*)` -/
def amountPat4 : RE :=
  .seq (.lit "总金额") (.seq lazyAny (.seq (.lit "¥") (.seq spaces0 amountNum)))

def amount_patterns : List RE := [amountPat1, amountPat2, amountPat3, amountPat4]

/-- `(\*[一-龥]+\*[^\s\d¥*]+)` -/
def contentPat1 : RE :=
  .grp (.seq (.lit "*") (.seq (.rep isCJK 1 none false)
    (.seq (.lit "*")
      (.rep (fun c => !(c.isWhitespace || c.isDigit || c = '¥' || c = '*')) 1 none false))))

/-- `(\*[一-龥]+\*)` -/
def contentPat2 : RE :=
  .grp (.seq (.lit "*") (.seq (.rep isCJK 1 none false) (.lit "*")))

/-- `货物或应税劳务名称.*?[:：]?\s*([^\d¥\s]+)(?=\s)` -/
def contentPat3 : RE :=
  .seq (.lit "货物或应税劳务名称") (.seq lazyAny (.seq colonOpt (.seq spaces0
    (.seq (.grp (.rep (fun c => !(c.isDigit || c = '¥' || c.isWhitespace)) 1 none false))
      (.look (.rep Char.isWhitespace 1 (some 1) false))))))

/-- `项目名称.*?[:：]?\s*([^\d¥\s]+)(?=\s)` -/
def contentPat4 : RE :=
  .seq (.lit "项目名称") (.seq lazyAny (.seq colonOpt (.seq spaces0
    (.seq (.grp (.rep (fun c => !(c.isDigit || c = '¥' || c.isWhitespace)) 1 none false))
      (.look (.rep Char.isWhitespace 1 (some 1) false))))))

def content_patterns : List RE := [contentPat1, contentPat2, contentPat3, contentPat4]

/-- `(?:公司|中心|厂|店|行)` -/
def companyTail : RE :=
  .alt (.lit "公司") (.alt (.lit "中心") (.alt (.lit "厂") (.alt (.lit "店") (.lit "行"))))

/-- `销售方.*?名称[:：]?\s*([一-龥]+(?:公司|中心|厂|店|行))` -/
def sellerPat1 : RE :=
  .seq (.lit "销售方") (.seq lazyAny (.seq (.lit "名称") (.seq colonOpt
    (.seq spaces0 (.grp (.seq (.rep isCJK 1 none false) companyTail))))))

/-- `(?:买方|名称|纳税人|统一|地址|电话|注|开户|银行)` -/
def sellerStop : RE :=
  .alt (.lit "买方") (.alt (.lit "名称") (.alt (.lit "纳税人") (.alt (.lit "统一")
    (.alt (.lit "地址") (.alt (.lit "电话") (.alt (.lit "注")
      (.alt (.lit "开户") (.lit "银行"))))))))

/-- `销售方.*?名称[:：]?\s*([^\s]+)(?=\s+(?:买方|名称|纳税人|统一|地址|电话|注|开户|银行)|$)` -/
def sellerPat2 : RE :=
  .seq (.lit "销售方") (.seq lazyAny (.seq (.lit "名称") (.seq colonOpt
    (.seq spaces0 (.seq (.grp (.rep (fun c => !c.isWhitespace) 1 none false))
      (.look (.alt (.seq spaces1 sellerStop) .eos)))))))

def seller_patterns : List RE := [sellerPat1, sellerPat2]

/-- `开户(?:银行|行)[:：]?\s*([^\s;；]+)(?=\s*[;；]|\s+(?:银行)?账号|$)` -/
def bankPat : RE :=
  .seq (.lit "开户") (.seq (.alt (.lit "银行") (.lit "行")) (.seq colonOpt
    (.seq spaces0 (.seq
      (.grp (.rep (fun c => !(c.isWhitespace || c = ';' || c = '；')) 1 none false))
      (.look (.alt (.seq spaces0 (.alt (.lit ";") (.lit "；")))
        (.alt (.seq spaces1 (.seq (.alt (.lit "银行") (.lit "")) (.lit "账号"))) .eos)))))))

/-- `(?:银行)?账号[:：]?\s*(\d{10,30})` -/
def accountPat : RE :=
  .seq (.alt (.lit "银行") (.lit "")) (.seq (.lit "账号") (.seq colonOpt
    (.seq spaces0 (.grp (.rep Char.isDigit 10 (some 30) false)))))

/-! ### Field extraction (`extract_invoice_info`) -/

/-- The seven extracted fields of an invoice. -/
structure InvoiceData where
  invoice_number : String
  invoice_date : String
  total_amount : String
  invoice_content : String
  seller_name : String
  bank_name : String
  bank_account : String
deriving DecidableEq, Repr

/-- TextNormalizer: `' '.join(all_text)`. -/
def normalize_text (lines : List String) : String := String.intercalate " " lines

def find_invoice_number (t : List Char) : Option String := reSearch reNumber t

def find_invoice_date (t : List Char) : Option String := firstMatch date_patterns t

def find_total_amount (t : List Char) : Option String := firstMatch amount_patterns t

/-- Date normalization: strip the marker glyphs; if the stripped run has
exactly 7 characters, re-split the original match into its digit runs and
zero-pad month and day (the source's `len(date_str) == 7` branch). -/
def normalizeDate (g : String) : String :=
  let d := stripDateMarkers g
  if d.length = 7 then
    match digitRuns g.toList with
    | [y, m, dd] => y ++ zfill2 m ++ zfill2 dd
    | _ => d
  else d

/-- Header words whose presence discards a content-description candidate. -/
def headerBlocked (c : String) : Bool :=
  containsSub c "规格" || containsSub c "单价" || containsSub c "单位" || containsSub c "数量"

/-- Content cascade: first match whose stripped text contains none of the
header words; a blocked candidate falls through to the next pattern. -/
def content_cascade : List RE → List Char → String
  | [], _ => ""
  | p :: ps, t =>
    match reSearch p t with
    | some g =>
      let c := pyStrip g
      if headerBlocked c then content_cascade ps t else c
    | none => content_cascade ps t

/-- Seller cleanup: strip, then drop leading non-CJK characters
(`re.sub(r'^[^一-龥]+', '', name)`). -/
def cleanSeller (g : String) : String :=
  String.mk ((pyStrip g).toList.dropWhile (fun c => !isCJK c))

/-- Seller cascade: a cleaned candidate is kept only if longer than 4
characters, otherwise the cascade continues. -/
def seller_cascade : List RE → List Char → String
  | [], _ => ""
  | p :: ps, t =>
    match reSearch p t with
    | some g =>
      let name := cleanSeller g
      if 4 < name.length then name else seller_cascade ps t
    | none => seller_cascade ps t

/-- Bank cleanup: strip, then remove trailing `[;；:：]+`. -/
def cleanBank (g : String) : String :=
  String.mk (((pyStrip g).toList.reverse.dropWhile
    (fun c => c = ';' || c = '；' || c = ':' || c = '：')).reverse)

/-- The extraction engine over the normalized OCR text: all seven cascades,
each field independently defaulting to the empty string. -/
def extract_invoice_info (full_text : String) : InvoiceData :=
  let t := full_text.toList
  { invoice_number := (find_invoice_number t).getD ""
    invoice_date :=
      match find_invoice_date t with
      | some g => normalizeDate g
      | none => ""
    total_amount :=
      match find_total_amount t with
      | some g => stripCommas g
      | none => ""
    invoice_content := content_cascade content_patterns t
    seller_name := seller_cascade seller_patterns t
    bank_name :=
      match reSearch bankPat t with
      | some g => cleanBank g
      | none => ""
    bank_account :=
      match reSearch accountPat t with
      | some g => pyStrip g
      | none => "" }

/-! ### Lifecycle state: the two sqlite tables, counters, and upload files

Rows carry the columns of the `invoices` / `recycle_bin` tables.
`created_at` / `updated_at` / `deleted_at` are stored by the source as
`YYYY-MM-DD HH:MM:SS` strings compared lexicographically; they are
modelled as seconds (`Nat`), an order-preserving change of representation.
-/

structure InvoiceRow where
  id : Nat
  type : String
  buyer_name : String
  invoice_number : String
  invoice_date : String
  total_amount : String
  invoice_content : String
  seller_name : String
  bank_name : String
  bank_account : String
  pdf_path : String
  file_hash : String
  created_at : Nat
  updated_at : Nat
deriving DecidableEq, Repr

structure RecycleRow where
  id : Nat
  type : String
  buyer_name : String
  invoice_number : String
  invoice_date : String
  total_amount : String
  invoice_content : String
  seller_name : String
  bank_name : String
  bank_account : String
  pdf_path : String
  file_hash : String
  created_at : Nat
  updated_at : Nat
  deleted_at : Nat
deriving DecidableEq, Repr

/-- The persistent state: the `invoices` and `recycle_bin` tables, their
`AUTOINCREMENT` counters, and the files present in the upload folder. -/
structure DB where
  invoices : List InvoiceRow
  recycle_bin : List RecycleRow
  next_invoice_id : Nat
  next_recycle_id : Nat
  uploads : List String
deriving DecidableEq, Repr

/-- `validate_invoice_type` (defined in the source, line 43; note that no
route ever calls it). -/
def validate_invoice_type (invoice_type : String) : Bool :=
  ["income", "expense", "other"].contains invoice_type

/-! ### Ingestion (`upload_invoice`, `/api/upload`) -/

inductive UploadResult where
  | duplicate_file
  | duplicate_number
  | success
deriving DecidableEq, Repr

/-- Result of one upload: the HTTP outcome, the state afterwards, and
whether the OCR/extraction stage was reached. -/
structure UploadOutcome where
  result : UploadResult
  db : DB
  extracted : Bool
deriving DecidableEq, Repr

/-- `upload_invoice`: fingerprint duplicate check first (before the file is
saved and before any extraction); then save, rasterize + OCR + extract
(`data` is the extractor's output for this document); then the
invoice-number duplicate check (which removes the saved file on rejection);
then the INSERT, which takes the next `AUTOINCREMENT` id.  The document is
represented by its fingerprint `file_hash` (`get_file_hash` is a pure
function of the bytes). -/
def upload_invoice (db : DB) (file_hash : String) (data : InvoiceData)
    (invoice_type buyer_name : String) (force : Bool) (filename : String)
    (now : Nat) : UploadOutcome :=
  if !force && db.invoices.any (fun r => r.file_hash == file_hash) then
    ⟨.duplicate_file, db, false⟩
  else
    -- file.save(filepath)
    let db1 : DB := { db with uploads := filename :: db.uploads }
    -- images = convert_from_path(...); invoice_data = extract_invoice_info(img_path)
    if !force && data.invoice_number != "" &&
        db.invoices.any (fun r => r.invoice_number == data.invoice_number) then
      -- os.remove(filepath)
      ⟨.duplicate_number, { db1 with uploads := db1.uploads.erase filename }, true⟩
    else
      let row : InvoiceRow :=
        { id := db.next_invoice_id
          type := invoice_type
          buyer_name := buyer_name
          invoice_number := data.invoice_number
          invoice_date := data.invoice_date
          total_amount := data.total_amount
          invoice_content := data.invoice_content
          seller_name := data.seller_name
          bank_name := data.bank_name
          bank_account := data.bank_account
          pdf_path := filename
          file_hash := file_hash
          created_at := now
          updated_at := now }
      ⟨.success,
        { db1 with
            invoices := db1.invoices ++ [row]
            next_invoice_id := db.next_invoice_id + 1 },
        true⟩

/-! ### Delete to recycle bin / restore (`delete_invoices`, `restore_invoices`) -/

/-- The recycle-bin copy of an Active row: every column except `id` is
copied (`del row_dict['id']`), `deleted_at` is added, and the destination
table assigns its own `AUTOINCREMENT` id. -/
def recycleOf (r : InvoiceRow) (newId deleted_at : Nat) : RecycleRow :=
  { id := newId
    type := r.type
    buyer_name := r.buyer_name
    invoice_number := r.invoice_number
    invoice_date := r.invoice_date
    total_amount := r.total_amount
    invoice_content := r.invoice_content
    seller_name := r.seller_name
    bank_name := r.bank_name
    bank_account := r.bank_account
    pdf_path := r.pdf_path
    file_hash := r.file_hash
    created_at := r.created_at
    updated_at := r.updated_at
    deleted_at := deleted_at }

/-- The Active copy of a recycled row: every column except `id` and
`deleted_at` is copied, and `invoices` assigns its own `AUTOINCREMENT` id. -/
def activeOf (q : RecycleRow) (newId : Nat) : InvoiceRow :=
  { id := newId
    type := q.type
    buyer_name := q.buyer_name
    invoice_number := q.invoice_number
    invoice_date := q.invoice_date
    total_amount := q.total_amount
    invoice_content := q.invoice_content
    seller_name := q.seller_name
    bank_name := q.bank_name
    bank_account := q.bank_account
    pdf_path := q.pdf_path
    file_hash := q.file_hash
    created_at := q.created_at
    updated_at := q.updated_at }

def delete_one (now : Nat) (db : DB) (i : Nat) : DB :=
  match db.invoices.find? (fun r => r.id == i) with
  | none => db
  | some r =>
    { db with
        recycle_bin := db.recycle_bin ++ [recycleOf r db.next_recycle_id now]
        next_recycle_id := db.next_recycle_id + 1
        invoices := db.invoices.filter (fun r2 => r2.id != i) }

/-- `/api/invoices/delete`: move each selected row into the recycle bin. -/
def delete_invoices (db : DB) (ids : List Nat) (now : Nat) : DB :=
  ids.foldl (delete_one now) db

def restore_one (db : DB) (i : Nat) : DB :=
  match db.recycle_bin.find? (fun q => q.id == i) with
  | none => db
  | some q =>
    { db with
        invoices := db.invoices ++ [activeOf q db.next_invoice_id]
        next_invoice_id := db.next_invoice_id + 1
        recycle_bin := db.recycle_bin.filter (fun q2 => q2.id != i) }

/-- `/api/recycle-bin/restore`: move each selected row back to `invoices`. -/
def restore_invoices (db : DB) (ids : List Nat) : DB :=
  ids.foldl restore_one db

/-! ### Recycle-bin read with retention sweep (`get_recycle_bin`) -/

/-- The 30-day retention window (`timedelta(days=30)`), in seconds. -/
def retention_window : Nat := 30 * 86400

/-- `/api/recycle-bin/<type>`: first the lazy retention sweep —
`DELETE FROM recycle_bin WHERE deleted_at < now - 30 days`, with no type
filter and no file removal — then the listing of the surviving rows of the
requested type.  Returns (state afterwards, rows returned); the
`ORDER BY deleted_at DESC` arrangement of the returned rows is delegated
to the store and not modelled. -/
def get_recycle_bin (db : DB) (invoice_type : String) (now : Nat) :
    DB × List RecycleRow :=
  let cutoff := now - retention_window
  let kept := db.recycle_bin.filter (fun q => !decide (q.deleted_at < cutoff))
  ({ db with recycle_bin := kept }, kept.filter (fun q => q.type == invoice_type))

/-! ### Permanent delete (`permanent_delete_invoices`) -/

def permanent_delete_one (db : DB) (i : Nat) : DB :=
  let db1 :=
    match db.recycle_bin.find? (fun q => q.id == i) with
    | some q =>
      -- if invoice['pdf_path']: os.remove(...) (guarded by os.path.exists)
      if q.pdf_path ≠ "" then
        { db with uploads := db.uploads.filter (fun f => f != q.pdf_path) }
      else db
    | none => db
  { db1 with recycle_bin := db1.recycle_bin.filter (fun q => q.id != i) }

/-- `/api/recycle-bin/permanent-delete`: remove the stored pdf of each
selected row, then delete the row. -/
def permanent_delete_invoices (db : DB) (ids : List Nat) : DB :=
  ids.foldl permanent_delete_one db

/-! ### Sorted listing (`get_invoices`) -/

/-- The sort-key whitelist (the keys of the source's `valid_sorts` dict). -/
def valid_sort_keys : List String :=
  ["invoice_date", "created_at", "invoice_number", "buyer_name", "total_amount"]

def upperAscii (s : String) : String := String.mk (s.toList.map Char.toUpper)

/-- The `(ORDER BY column, direction)` pair the `/api/invoices/<type>`
route passes to the store: `sort_order = 'ASC' if order.upper() == 'ASC'
else 'DESC'`, and the query is looked up under
`(sort_by if sort_by in valid_sorts else 'created_at', sort_order)` —
a key always present in the `queries` dict, so the dict's
`('created_at', 'DESC')` default is never used. -/
def queryKey (sort_by order : String) : String × String :=
  let sort_order := if upperAscii order == "ASC" then "ASC" else "DESC"
  let key := if valid_sort_keys.contains sort_by then sort_by else "created_at"
  (key, sort_order)

/-- `/api/invoices/<type>`: the rows of the requested type together with
the ordering directive handed to the store. -/
def get_invoices (db : DB) (invoice_type sort_by order : String) :
    List InvoiceRow × (String × String) :=
  (db.invoices.filter (fun r => r.type == invoice_type), queryKey sort_by order)

/-! ### Field updates (`update_invoice`, `batch_update_invoices`) -/

/-- Allow-list of `/api/invoices/<id>` (PUT, single-record update). -/
def update_allowed_fields : List String :=
  ["buyer_name", "invoice_number", "invoice_date", "total_amount",
   "invoice_content", "seller_name", "bank_name", "bank_account", "type"]

/-- Allow-list of `/api/batch-update`. -/
def batch_allowed_fields : List String := ["buyer_name", "type"]

/-- `{k: v for k, v in data.items() if k in allowed_fields}` -/
def filter_update (allowed : List String) (data : List (String × String)) :
    List (String × String) :=
  data.filter (fun kv => allowed.contains kv.1)

/-- Assign one column of a row (one `k = ?` item of the generated SQL
`SET` clause; only whitelisted column names ever reach it). -/
def set_field (r : InvoiceRow) (kv : String × String) : InvoiceRow :=
  if kv.1 == "type" then { r with type := kv.2 }
  else if kv.1 == "buyer_name" then { r with buyer_name := kv.2 }
  else if kv.1 == "invoice_number" then { r with invoice_number := kv.2 }
  else if kv.1 == "invoice_date" then { r with invoice_date := kv.2 }
  else if kv.1 == "total_amount" then { r with total_amount := kv.2 }
  else if kv.1 == "invoice_content" then { r with invoice_content := kv.2 }
  else if kv.1 == "seller_name" then { r with seller_name := kv.2 }
  else if kv.1 == "bank_name" then { r with bank_name := kv.2 }
  else if kv.1 == "bank_account" then { r with bank_account := kv.2 }
  else r

inductive UpdateResult where
  | noValidFields
  | notFound
  | ok
deriving DecidableEq, Repr

/-- `/api/batch-update`: filter the request through the batch allow-list;
an empty filtered set is rejected before any mutation; otherwise every
selected row receives the filtered assignments plus a fresh `updated_at`. -/
def batch_update_invoices (db : DB) (ids : List Nat)
    (data : List (String × String)) (now : Nat) : UpdateResult × DB :=
  let ud := filter_update batch_allowed_fields data
  if ud.isEmpty then (.noValidFields, db)
  else
    let step (dbx : DB) (i : Nat) : DB :=
      { dbx with
          invoices := dbx.invoices.map (fun r =>
            if r.id == i then { ud.foldl set_field r with updated_at := now } else r) }
    (.ok, ids.foldl step db)

/-- `/api/invoices/<id>` (PUT): same shape with the nine-field allow-list
and a not-found check. -/
def update_invoice (db : DB) (i : Nat) (data : List (String × String))
    (now : Nat) : UpdateResult × DB :=
  let ud := filter_update update_allowed_fields data
  if ud.isEmpty then (.noValidFields, db)
  else if db.invoices.all (fun r => r.id != i) then (.notFound, db)
  else
    (.ok,
      { db with
          invoices := db.invoices.map (fun r =>
            if r.id == i then { ud.foldl set_field r with updated_at := now } else r) })

/-! ### Concrete states used by counterexamples and witnesses -/

def blankData : InvoiceData :=
  { invoice_number := "", invoice_date := "", total_amount := ""
    invoice_content := "", seller_name := "", bank_name := "", bank_account := "" }

def emptyDB : DB :=
  { invoices := [], recycle_bin := [], next_invoice_id := 1, next_recycle_id := 1
    uploads := [] }

def rowA : InvoiceRow :=
  { id := 5, type := "expense", buyer_name := "李雷", invoice_number := "24409970"
    invoice_date := "20240101", total_amount := "88.20", invoice_content := "*服务*咨询"
    seller_name := "北京某某科技有限公司", bank_name := "中国银行北京分行"
    bank_account := "12345678901234", pdf_path := "a.pdf", file_hash := "h1"
    created_at := 100, updated_at := 100 }

/-- A state whose two `AUTOINCREMENT` counters differ from the stored ids,
as arises after unrelated prior activity. -/
def dbA : DB :=
  { invoices := [rowA], recycle_bin := [], next_invoice_id := 6, next_recycle_id := 1
    uploads := ["a.pdf"] }

def qOld : RecycleRow :=
  { id := 1, type := "expense", buyer_name := "李雷", invoice_number := "24409970"
    invoice_date := "20240101", total_amount := "88.20", invoice_content := "*服务*咨询"
    seller_name := "北京某某科技有限公司", bank_name := "中国银行北京分行"
    bank_account := "12345678901234", pdf_path := "a.pdf", file_hash := "h1"
    created_at := 100, updated_at := 100, deleted_at := 100 }

/-- A recycle bin holding one record whose pdf is still stored. -/
def dbRecycled : DB :=
  { invoices := [], recycle_bin := [qOld], next_invoice_id := 6, next_recycle_id := 2
    uploads := ["a.pdf"] }

/-- A state with one expired (9 days after epoch) and one retained
(11 days after epoch) recycled record, read at day 40: the first was
deleted 31 days before the read, the second 29 days before. -/
def qExp : RecycleRow :=
  { qOld with id := 1, deleted_at := 9 * 86400, pdf_path := "a.pdf" }

def qRet : RecycleRow :=
  { qOld with id := 2, deleted_at := 11 * 86400, pdf_path := "b.pdf" }

def dbC9 : DB :=
  { invoices := [], recycle_bin := [qExp, qRet], next_invoice_id := 6
    next_recycle_id := 3, uploads := ["a.pdf", "b.pdf"] }

/-- The id together with the seven extracted fields of a row — the part of
a record that a batch update must not touch. -/
def extractedOf (r : InvoiceRow) : Nat × InvoiceData :=
  (r.id,
    { invoice_number := r.invoice_number, invoice_date := r.invoice_date
      total_amount := r.total_amount, invoice_content := r.invoice_content
      seller_name := r.seller_name, bank_name := r.bank_name
      bank_account := r.bank_account })

/-! ### Helper lemmas -/

theorem content_cascade_empty (ps : List RE) (t : List Char)
    (h : ∀ p ∈ ps, reSearch p t = none) : content_cascade ps t = "" := by
  induction ps with
  | nil => rfl
  | cons p ps ih =>
    have hp := h p (List.mem_cons_self _ _)
    simp only [content_cascade, hp]
    exact ih (fun q hq => h q (List.mem_cons_of_mem _ hq))

theorem seller_cascade_empty (ps : List RE) (t : List Char)
    (h : ∀ p ∈ ps, reSearch p t = none) : seller_cascade ps t = "" := by
  induction ps with
  | nil => rfl
  | cons p ps ih =>
    have hp := h p (List.mem_cons_self _ _)
    simp only [seller_cascade, hp]
    exact ih (fun q hq => h q (List.mem_cons_of_mem _ hq))

theorem contains_batch (k : String) :
    batch_allowed_fields.contains k = (k == "buyer_name" || k == "type") := by
  simp only [batch_allowed_fields, List.contains_cons, List.contains_nil,
    Bool.or_false]

theorem contains_update (k : String) :
    update_allowed_fields.contains k
      = (k == "buyer_name" || k == "invoice_number" || k == "invoice_date"
        || k == "total_amount" || k == "invoice_content" || k == "seller_name"
        || k == "bank_name" || k == "bank_account" || k == "type") := by
  simp only [update_allowed_fields, List.contains_cons, List.contains_nil,
    Bool.or_false, Bool.or_assoc]

theorem set_field_batch_frame (r : InvoiceRow) (kv : String × String)
    (h : kv.1 = "buyer_name" ∨ kv.1 = "type") :
    extractedOf (set_field r kv) = extractedOf r := by
  rcases h with h | h <;> simp [set_field, h, extractedOf]

theorem foldl_set_field_batch_frame (ud : List (String × String)) (r : InvoiceRow)
    (h : ∀ kv ∈ ud, kv.1 = "buyer_name" ∨ kv.1 = "type") :
    extractedOf (ud.foldl set_field r) = extractedOf r := by
  induction ud generalizing r with
  | nil => rfl
  | cons kv ud ih =>
    rw [List.foldl_cons, ih _ (fun x hx => h x (List.mem_cons_of_mem _ hx)),
      set_field_batch_frame r kv (h kv (List.mem_cons_self _ _))]

/-! ## Theorems -/

/-- C2: The spec's date-normalization example says the input text
`"2024年3月5日"` extracts as `"20240305"`.  The code's zero-padding branch
fires only when the stripped digit run has exactly 7 characters, which a
date with a single-digit month AND a single-digit day (6 characters after
stripping) never satisfies: the code stores `"202435"`, not the canonical
`YYYYMMDD` form its own data model requires.  The pass-through half of the
example (`"20240305"`) does hold, and a date with exactly one single-digit
component (`"2024年12月5日"`) is padded as described. -/
theorem C2_date_normalization_at_failing_input :
    (Fapiao.extract_invoice_info "2024年3月5日").invoice_date = "202435"
  ∧ (Fapiao.extract_invoice_info "2024年3月5日").invoice_date ≠ "20240305"
  ∧ (Fapiao.extract_invoice_info "20240305").invoice_date = "20240305"
  ∧ (Fapiao.extract_invoice_info "2024年12月5日").invoice_date = "20241205" := by
  refine ⟨?_, ?_, ?_, ?_⟩ <;> decide

/-- C5: the claim says every purge path deletes the stored source file.
The explicit permanent-delete path does (`os.remove` before the row
delete), but the retention-expired sweep run by a recycle-bin read is a
bare `DELETE FROM recycle_bin WHERE deleted_at < ?`: at the input below it
purges the expired row yet leaves `a.pdf` in the upload folder. -/
theorem C5_sweep_purges_row_but_not_file :
    ((Fapiao.get_recycle_bin Fapiao.dbRecycled "expense" 2600000).1.recycle_bin = []
  ∧ (Fapiao.get_recycle_bin Fapiao.dbRecycled "expense" 2600000).1.uploads = ["a.pdf"])
  ∧ ((Fapiao.permanent_delete_invoices Fapiao.dbRecycled [1]).recycle_bin = []
  ∧ (Fapiao.permanent_delete_invoices Fapiao.dbRecycled [1]).uploads = []) := by
  refine ⟨⟨?_, ?_⟩, ?_, ?_⟩ <;> decide

/-- C8: the claim says every successful ingestion establishes a non-empty
category and buyer before committing.  The upload route never validates
either (`validate_invoice_type` exists but is never called, and
`buyer_name` defaults to `''`): an upload with empty category and empty
buyer is committed as an Active record carrying both empty. -/
theorem C8_empty_category_and_buyer_committed :
    (Fapiao.upload_invoice Fapiao.emptyDB "h9" Fapiao.blankData "" "" false "f.pdf" 100).result
      = Fapiao.UploadResult.success
  ∧ ((Fapiao.upload_invoice Fapiao.emptyDB "h9" Fapiao.blankData "" "" false "f.pdf" 100).db.invoices.map
      (fun r => (r.type, r.buyer_name))) = [("", "")]
  ∧ Fapiao.validate_invoice_type "" = false := by
  refine ⟨?_, ?_, ?_⟩ <;> decide

/-- C4 counterexample: ids are not stable across lifecycle moves.  In
`dbA` the record is Active with id 5; moving it to the recycle bin stores
it under the bin's next `AUTOINCREMENT` id 1 (the source drops `id` before
the INSERT), and restoring stores it back under the Active table's next id
6 — three distinct ids for the same record, refuting the claim. -/
theorem C4_id_changes_across_moves :
    (Fapiao.dbA.invoices.map (fun r => r.id) = [5])
  ∧ ((Fapiao.delete_invoices Fapiao.dbA [5] 200).recycle_bin.map (fun q => q.id) = [1])
  ∧ ((Fapiao.restore_invoices (Fapiao.delete_invoices Fapiao.dbA [5] 200) [1]).invoices.map
      (fun r => r.id) = [6])
  ∧ (5 ≠ 1) ∧ (5 ≠ 6) := by
  refine ⟨?_, ?_, ?_, ?_, ?_⟩ <;> decide

/-- C6 counterexample: the claim says an unrecognized sort key yields
`created_at` DESCENDING regardless of the requested direction.  For the
non-whitelisted key `"amount"` with direction `"ASC"` the route looks up
the `('created_at', 'ASC')` query — ascending, not descending. -/
theorem C6_bad_key_with_asc_is_ascending :
    Fapiao.valid_sort_keys.contains "amount" = false
  ∧ Fapiao.queryKey "amount" "ASC" = ("created_at", "ASC")
  ∧ Fapiao.queryKey "amount" "ASC" ≠ ("created_at", "DESC") := by
  refine ⟨?_, ?_, ?_⟩ <;> decide

/-- C7 counterexample: the claim says batch updates accept the seven
extracted fields.  A batch update of `invoice_number` alone is filtered to
nothing by the batch allow-list `{buyer_name, type}` and rejected as
having no valid fields; the record keeps its old number and the state is
unchanged — the field is not applied. -/
theorem C7_batch_rejects_extracted_field :
    (Fapiao.batch_update_invoices Fapiao.dbA [5] [("invoice_number", "NEW")] 500).1
      = Fapiao.UpdateResult.noValidFields
  ∧ (Fapiao.batch_update_invoices Fapiao.dbA [5] [("invoice_number", "NEW")] 500).2
      = Fapiao.dbA
  ∧ Fapiao.batch_allowed_fields.contains "invoice_number" = false := by
  refine ⟨?_, ?_, ?_⟩ <;> decide

/-- C3: field extraction is a total function producing all seven fields,
and each field whose cascade produces no (surviving) match is the empty
string — absence of a match is data, never an error. -/
theorem C3_no_match_gives_empty_field (s : String) :
    (find_invoice_number s.toList = none →
      (Fapiao.extract_invoice_info s).invoice_number = "")
  ∧ (find_invoice_date s.toList = none →
      (Fapiao.extract_invoice_info s).invoice_date = "")
  ∧ (find_total_amount s.toList = none →
      (Fapiao.extract_invoice_info s).total_amount = "")
  ∧ ((∀ p ∈ content_patterns, reSearch p s.toList = none) →
      (Fapiao.extract_invoice_info s).invoice_content = "")
  ∧ ((∀ p ∈ seller_patterns, reSearch p s.toList = none) →
      (Fapiao.extract_invoice_info s).seller_name = "")
  ∧ (reSearch bankPat s.toList = none →
      (Fapiao.extract_invoice_info s).bank_name = "")
  ∧ (reSearch accountPat s.toList = none →
      (Fapiao.extract_invoice_info s).bank_account = "") := by
  have hd : s.toList = s.data := rfl
  rw [hd]
  refine ⟨fun h => ?_, fun h => ?_, fun h => ?_, fun h => ?_, fun h => ?_,
    fun h => ?_, fun h => ?_⟩
  · simp [extract_invoice_info, h]
  · simp [extract_invoice_info, h]
  · simp [extract_invoice_info, h]
  · simp [extract_invoice_info, content_cascade_empty _ _ h]
  · simp [extract_invoice_info, seller_cascade_empty _ _ h]
  · simp [extract_invoice_info, h]
  · simp [extract_invoice_info, h]

/-- C3 witness: on the text `"x"` no cascade matches and all seven fields
come back empty. -/
theorem C3_witness :
    (Fapiao.extract_invoice_info "x").invoice_number = ""
  ∧ (Fapiao.extract_invoice_info "x").invoice_date = ""
  ∧ (Fapiao.extract_invoice_info "x").total_amount = ""
  ∧ (Fapiao.extract_invoice_info "x").invoice_content = ""
  ∧ (Fapiao.extract_invoice_info "x").seller_name = ""
  ∧ (Fapiao.extract_invoice_info "x").bank_name = ""
  ∧ (Fapiao.extract_invoice_info "x").bank_account = "" := by
  have h := C3_no_match_gives_empty_field "x"
  exact ⟨h.1 (by decide), h.2.1 (by decide), h.2.2.1 (by decide),
    h.2.2.2.1 (by decide), h.2.2.2.2.1 (by decide), h.2.2.2.2.2.1 (by decide),
    h.2.2.2.2.2.2 (by decide)⟩

/-- C9: a recycle-bin read first purges every record whose `deleted_at` is
more than 30 days before `now` (it disappears from the stored bin and is
not returned), and keeps every record inside the window (it stays in the
bin and is returned when its category is the one read). -/
theorem C9_retention_sweep (db : DB) (t : String) (now : Nat) (q q2 : RecycleRow)
    (hmem : q ∈ db.recycle_bin) (hmem2 : q2 ∈ db.recycle_bin)
    (hexp : q.deleted_at < now - retention_window)
    (hret : ¬ q2.deleted_at < now - retention_window)
    (hty : q2.type = t) :
    q ∉ (Fapiao.get_recycle_bin db t now).1.recycle_bin
  ∧ q ∉ (Fapiao.get_recycle_bin db t now).2
  ∧ q2 ∈ (Fapiao.get_recycle_bin db t now).1.recycle_bin
  ∧ q2 ∈ (Fapiao.get_recycle_bin db t now).2 := by
  have hkept : q ∉ db.recycle_bin.filter
      (fun x => !decide (x.deleted_at < now - retention_window)) := by
    intro hq
    have := (List.mem_filter.mp hq).2
    simp [hexp] at this
  refine ⟨hkept, fun hq => hkept (List.mem_filter.mp hq).1, ?_, ?_⟩
  · exact List.mem_filter.mpr ⟨hmem2, by simp [hret]⟩
  · exact List.mem_filter.mpr
      ⟨List.mem_filter.mpr ⟨hmem2, by simp [hret]⟩, by simp [hty]⟩

/-- C9 witness: in `dbC9`, read at day 40, the record deleted on day 9
(31 days earlier) is purged and absent, while the record deleted on day 11
(29 days earlier) is retained and returned for its category. -/
theorem C9_witness :
    Fapiao.qExp ∉ (Fapiao.get_recycle_bin Fapiao.dbC9 "expense" (40 * 86400)).1.recycle_bin
  ∧ Fapiao.qExp ∉ (Fapiao.get_recycle_bin Fapiao.dbC9 "expense" (40 * 86400)).2
  ∧ Fapiao.qRet ∈ (Fapiao.get_recycle_bin Fapiao.dbC9 "expense" (40 * 86400)).1.recycle_bin
  ∧ Fapiao.qRet ∈ (Fapiao.get_recycle_bin Fapiao.dbC9 "expense" (40 * 86400)).2 :=
  C9_retention_sweep Fapiao.dbC9 "expense" (40 * 86400) Fapiao.qExp Fapiao.qRet
    (by decide) (by decide) (by decide) (by decide) rfl

/-- C10: the sweep a recycle-bin read performs is unfiltered by category —
an expired record of a category other than the one being read is purged by
the read all the same — while the returned listing contains only records
of the requested category. -/
theorem C10_sweep_ignores_category (db : DB) (t : String) (now : Nat)
    (q : RecycleRow) (hmem : q ∈ db.recycle_bin) (hty : q.type ≠ t)
    (hexp : q.deleted_at < now - retention_window) :
    q ∉ (Fapiao.get_recycle_bin db t now).1.recycle_bin
  ∧ (Fapiao.get_recycle_bin db t now).2.all (fun r => r.type == t) = true := by
  constructor
  · intro hq
    have := (List.mem_filter.mp hq).2
    simp [hexp] at this
  · rw [List.all_eq_true]
    intro r hr
    exact (List.mem_filter.mp hr).2

/-- C10 witness: reading the `"income"` bin of `dbC9` purges the expired
`"expense"` record, and every row the read returns is an `"income"` row. -/
theorem C10_witness :
    Fapiao.qExp ∉ (Fapiao.get_recycle_bin Fapiao.dbC9 "income" (40 * 86400)).1.recycle_bin
  ∧ (Fapiao.get_recycle_bin Fapiao.dbC9 "income" (40 * 86400)).2.all
      (fun r => r.type == "income") = true :=
  C10_sweep_ignores_category Fapiao.dbC9 "income" (40 * 86400) Fapiao.qExp
    (by decide) (by decide) (by decide)

/-- C1: ingesting a document whose fingerprint is not yet stored (and whose
extracted number does not collide) commits exactly one new Active record
carrying that fingerprint; re-ingesting the same bytes (same fingerprint)
with `force = false` is rejected as a fingerprint duplicate before the
extraction stage — whatever the second call's extraction would have
produced — and leaves the state, in particular the stored Active records,
exactly as after the first call. -/
theorem C1_second_ingest_rejected_by_fingerprint
    (db : DB) (fp fn1 fn2 ty1 b1 ty2 b2 : String) (d1 d2 : InvoiceData) (t1 t2 : Nat)
    (hfp : db.invoices.all (fun r => r.file_hash != fp) = true)
    (hnum : d1.invoice_number = ""
      ∨ db.invoices.all (fun r => r.invoice_number != d1.invoice_number) = true) :
    (Fapiao.upload_invoice db fp d1 ty1 b1 false fn1 t1).result = UploadResult.success
  ∧ (Fapiao.upload_invoice db fp d1 ty1 b1 false fn1 t1).db.invoices
      = db.invoices ++
        [{ id := db.next_invoice_id, type := ty1, buyer_name := b1
           invoice_number := d1.invoice_number, invoice_date := d1.invoice_date
           total_amount := d1.total_amount, invoice_content := d1.invoice_content
           seller_name := d1.seller_name, bank_name := d1.bank_name
           bank_account := d1.bank_account, pdf_path := fn1, file_hash := fp
           created_at := t1, updated_at := t1 }]
  ∧ (Fapiao.upload_invoice (Fapiao.upload_invoice db fp d1 ty1 b1 false fn1 t1).db
        fp d2 ty2 b2 false fn2 t2).result = UploadResult.duplicate_file
  ∧ (Fapiao.upload_invoice (Fapiao.upload_invoice db fp d1 ty1 b1 false fn1 t1).db
        fp d2 ty2 b2 false fn2 t2).extracted = false
  ∧ (Fapiao.upload_invoice (Fapiao.upload_invoice db fp d1 ty1 b1 false fn1 t1).db
        fp d2 ty2 b2 false fn2 t2).db
      = (Fapiao.upload_invoice db fp d1 ty1 b1 false fn1 t1).db := by
  have c1 : db.invoices.any (fun r => r.file_hash == fp) = false := by
    rw [List.any_eq_false]
    intro r hr
    have := List.all_eq_true.mp hfp r hr
    simp only [bne_iff_ne, ne_eq] at this
    simp [this]
  have c2 : (d1.invoice_number != "" &&
      db.invoices.any (fun r => r.invoice_number == d1.invoice_number)) = false := by
    rcases hnum with h0 | hall
    · simp [h0]
    · have : db.invoices.any (fun r => r.invoice_number == d1.invoice_number) = false := by
        rw [List.any_eq_false]
        intro r hr
        have := List.all_eq_true.mp hall r hr
        simp only [bne_iff_ne, ne_eq] at this
        simp [this]
      simp [this]
  refine ⟨?_, ?_, ?_, ?_, ?_⟩ <;>
    simp [upload_invoice, c1, Bool.and_assoc, c2]

/-- C1 witness: uploading a fresh document into the empty store succeeds
and the identical bytes are then rejected as `duplicate_file` with no
state change and no extraction. -/
theorem C1_witness :
    (Fapiao.upload_invoice Fapiao.emptyDB "h1" Fapiao.blankData "expense" "李雷" false
        "f1.pdf" 300).result = Fapiao.UploadResult.success
  ∧ (Fapiao.upload_invoice
        (Fapiao.upload_invoice Fapiao.emptyDB "h1" Fapiao.blankData "expense" "李雷" false
          "f1.pdf" 300).db "h1" Fapiao.blankData "expense" "李雷" false "f2.pdf" 400).result
      = Fapiao.UploadResult.duplicate_file
  ∧ (Fapiao.upload_invoice
        (Fapiao.upload_invoice Fapiao.emptyDB "h1" Fapiao.blankData "expense" "李雷" false
          "f1.pdf" 300).db "h1" Fapiao.blankData "expense" "李雷" false "f2.pdf" 400).extracted
      = false
  ∧ (Fapiao.upload_invoice
        (Fapiao.upload_invoice Fapiao.emptyDB "h1" Fapiao.blankData "expense" "李雷" false
          "f1.pdf" 300).db "h1" Fapiao.blankData "expense" "李雷" false "f2.pdf" 400).db
      = (Fapiao.upload_invoice Fapiao.emptyDB "h1" Fapiao.blankData "expense" "李雷" false
          "f1.pdf" 300).db := by
  have h := C1_second_ingest_rejected_by_fingerprint Fapiao.emptyDB "h1" "f1.pdf" "f2.pdf"
    "expense" "李雷" "expense" "李雷" Fapiao.blankData Fapiao.blankData 300 400
    (by decide) (Or.inl rfl)
  exact ⟨h.1, h.2.2.1, h.2.2.2.1, h.2.2.2.2⟩

/-- C4 (amended): a move to the recycle bin copies every column except the
id and stores the copy under the destination table's next `AUTOINCREMENT`
id (and a restore does the converse with the Active table's counter) — so
the id is fresh per move, not preserved; within a table, ids are never
reused (the assigned id differs from every id the table holds whenever the
counter dominates them). -/
theorem C4_moves_assign_fresh_ids (db db2 : DB) (i j now : Nat)
    (r : InvoiceRow) (q : RecycleRow)
    (hfind : db.invoices.find? (fun x => x.id == i) = some r)
    (hfind2 : db2.recycle_bin.find? (fun x => x.id == j) = some q)
    (hfresh : db.recycle_bin.all (fun x => decide (x.id < db.next_recycle_id)) = true) :
    (Fapiao.delete_invoices db [i] now).recycle_bin
      = db.recycle_bin ++ [recycleOf r db.next_recycle_id now]
  ∧ (Fapiao.delete_invoices db [i] now).next_recycle_id = db.next_recycle_id + 1
  ∧ db.recycle_bin.all (fun x => x.id != db.next_recycle_id) = true
  ∧ (Fapiao.restore_invoices db2 [j]).invoices
      = db2.invoices ++ [activeOf q db2.next_invoice_id]
  ∧ (Fapiao.restore_invoices db2 [j]).next_invoice_id = db2.next_invoice_id + 1 := by
  refine ⟨?_, ?_, ?_, ?_, ?_⟩
  · simp [delete_invoices, delete_one, hfind]
  · simp [delete_invoices, delete_one, hfind]
  · rw [List.all_eq_true] at hfresh ⊢
    intro x hx
    have := hfresh x hx
    simp only [decide_eq_true_eq] at this
    simp [Nat.ne_of_lt this]
  · simp [restore_invoices, restore_one, hfind2]
  · simp [restore_invoices, restore_one, hfind2]

/-- C4 amended witness: deleting record 5 of `dbA` stores its copy under
the bin's counter 1, and restoring stores it back under the Active
counter 6. -/
theorem C4_amended_witness :
    (Fapiao.delete_invoices Fapiao.dbA [5] 200).recycle_bin
      = Fapiao.dbA.recycle_bin ++ [Fapiao.recycleOf Fapiao.rowA Fapiao.dbA.next_recycle_id 200]
  ∧ (Fapiao.delete_invoices Fapiao.dbA [5] 200).next_recycle_id
      = Fapiao.dbA.next_recycle_id + 1
  ∧ Fapiao.dbA.recycle_bin.all (fun x => x.id != Fapiao.dbA.next_recycle_id) = true
  ∧ (Fapiao.restore_invoices (Fapiao.delete_invoices Fapiao.dbA [5] 200) [1]).invoices
      = (Fapiao.delete_invoices Fapiao.dbA [5] 200).invoices ++
        [Fapiao.activeOf (Fapiao.recycleOf Fapiao.rowA 1 200)
          (Fapiao.delete_invoices Fapiao.dbA [5] 200).next_invoice_id]
  ∧ (Fapiao.restore_invoices (Fapiao.delete_invoices Fapiao.dbA [5] 200) [1]).next_invoice_id
      = (Fapiao.delete_invoices Fapiao.dbA [5] 200).next_invoice_id + 1 :=
  C4_moves_assign_fresh_ids Fapiao.dbA (Fapiao.delete_invoices Fapiao.dbA [5] 200)
    5 1 200 Fapiao.rowA (Fapiao.recycleOf Fapiao.rowA 1 200)
    (by decide) (by decide) (by decide)

/-- C6 (amended): an unrecognized sort key silently falls back to
`created_at`, but the requested direction is honored rather than forced to
descending: the chosen ordering equals the one for `created_at` with the
same direction — `ASC` exactly when the upper-cased direction is `"ASC"`,
`DESC` otherwise (descending is only the default absent an `ASC`
request). No sort key is an error. -/
theorem C6_fallback_keeps_direction (sort_by order : String)
    (hkey : valid_sort_keys.contains sort_by = false) :
    Fapiao.queryKey sort_by order = Fapiao.queryKey "created_at" order
  ∧ (Fapiao.queryKey sort_by order).1 = "created_at"
  ∧ ((upperAscii order == "ASC") = true → (Fapiao.queryKey sort_by order).2 = "ASC")
  ∧ ((upperAscii order == "ASC") = false → (Fapiao.queryKey sort_by order).2 = "DESC") := by
  have hk : sort_by ∉ valid_sort_keys := by simpa using hkey
  refine ⟨?_, ?_, fun hc => ?_, fun hc => ?_⟩
  · simp [queryKey, hk]
  · simp [queryKey, hk]
  · simp [queryKey, hc]
  · simp [queryKey, hc]

/-- C6 amended witness at the unrecognized key `"amount"` with the
lower-case direction `"asc"`. -/
theorem C6_amended_witness :
    Fapiao.queryKey "amount" "asc" = Fapiao.queryKey "created_at" "asc"
  ∧ (Fapiao.queryKey "amount" "asc").1 = "created_at"
  ∧ ((Fapiao.upperAscii "asc" == "ASC") = true →
      (Fapiao.queryKey "amount" "asc").2 = "ASC")
  ∧ ((Fapiao.upperAscii "asc" == "ASC") = false →
      (Fapiao.queryKey "amount" "asc").2 = "DESC") :=
  C6_fallback_keeps_direction "amount" "asc" (by decide)

theorem batch_fold_frame (ud : List (String × String)) (now : Nat)
    (hud : ∀ kv ∈ ud, kv.1 = "buyer_name" ∨ kv.1 = "type")
    (ids : List Nat) (db : DB) :
    ((ids.foldl (fun dbx i =>
        { dbx with
            invoices := dbx.invoices.map (fun r =>
              if r.id == i then { ud.foldl set_field r with updated_at := now }
              else r) }) db).invoices.map extractedOf)
      = db.invoices.map extractedOf := by
  induction ids generalizing db with
  | nil => rfl
  | cons i ids ih =>
    rw [List.foldl_cons, ih, List.map_map]
    apply List.map_congr_left
    intro r _
    by_cases hr : (r.id == i) = true
    · simp only [Function.comp_apply, hr, if_pos]
      exact foldl_set_field_batch_frame ud r hud
    · have hne : ¬ r.id = i := by simpa using hr
      simp [hne]

/-- C7 (amended): the batch-update allow-list is exactly `{category,
buyer}` — a requested field survives the filter precisely when it is one
of those two, anything else being silently dropped (an entirely dropped
request is rejected as `noValidFields` before any mutation) — and a batch
update therefore never changes any record's id or any of its seven
extracted fields.  The nine-field list of the claim (category, buyer and
the seven extracted fields) is the allow-list of the single-record update
route, not of batch update. -/
theorem C7_batch_allow_list_is_buyer_and_category (db : DB) (ids : List Nat)
    (data : List (String × String)) (now : Nat) :
    filter_update batch_allowed_fields data
      = data.filter (fun kv => kv.1 == "buyer_name" || kv.1 == "type")
  ∧ (Fapiao.batch_update_invoices db ids data now).2.invoices.map extractedOf
      = db.invoices.map extractedOf
  ∧ filter_update update_allowed_fields data
      = data.filter (fun kv => kv.1 == "buyer_name" || kv.1 == "invoice_number"
          || kv.1 == "invoice_date" || kv.1 == "total_amount"
          || kv.1 == "invoice_content" || kv.1 == "seller_name"
          || kv.1 == "bank_name" || kv.1 == "bank_account" || kv.1 == "type") := by
  refine ⟨List.filter_congr (fun kv _ => contains_batch kv.1), ?_,
    List.filter_congr (fun kv _ => contains_update kv.1)⟩
  have hud : ∀ kv ∈ filter_update batch_allowed_fields data,
      kv.1 = "buyer_name" ∨ kv.1 = "type" := by
    intro kv hkv
    have hc := (List.mem_filter.mp hkv).2
    rw [contains_batch] at hc
    simpa using hc
  unfold batch_update_invoices
  by_cases he : (filter_update batch_allowed_fields data).isEmpty
  · simp [he]
  · simp only [he, Bool.false_eq_true, if_false]
    exact batch_fold_frame (filter_update batch_allowed_fields data) now hud ids db

end Fapiao
